import Mathlib

/-!
Verification of the Clipper draft-saving browser extension.

The definitions below are shallow embeddings of the JavaScript sources of the
repository.  DOM elements are modelled by records carrying exactly the
attributes and properties that the embedded functions read; the persistent
key-value store is modelled by an association list from draft keys to draft
records; fallible operations return Option or Except values, where none (or
an error value) models a skipped save, a missing result or a thrown
exception.  Timestamps are epoch milliseconds as natural numbers.
-/

namespace Clipper

/-- Lowercasing character by character, modelling the JavaScript
toLowerCase method on the basic latin range. -/
def lowerStr (s : String) : String :=
  ⟨s.data.map Char.toLower⟩

/-- Uppercasing character by character, modelling the JavaScript
toUpperCase method on the basic latin range. -/
def upperStr (s : String) : String :=
  ⟨s.data.map Char.toUpper⟩

/-- The whitespace characters removed by the JavaScript trim method (the
common ones). -/
def isJsSpace (c : Char) : Bool :=
  c == ' ' || c == '\t' || c == '\n' || c == '\r'

/-- Trimming leading and trailing whitespace, modelling the JavaScript trim
method. -/
def trimStr (s : String) : String :=
  ⟨((s.data.dropWhile isJsSpace).reverse.dropWhile isJsSpace).reverse⟩

/-- The first n characters of a string, modelling substring(0, n). -/
def takeStr (s : String) (n : Nat) : String :=
  ⟨s.data.take n⟩

/-- Case-sensitive substring test, modelling the JavaScript String.includes
method. -/
def strContains (s pat : String) : Bool :=
  (List.range (s.data.length + 1)).any (fun i => pat.data.isPrefixOf (s.data.drop i))

/-- Case-insensitive substring test, modelling a case-insensitive regex token
test such as /password|passwd|pwd/i.test(s). -/
def ciContains (s pat : String) : Bool :=
  strContains (lowerStr s) (lowerStr pat)

/-- Models the JavaScript expression a || b on an optional number, where both
a missing value and the number 0 are falsy. -/
def jsOrNat (a : Option Nat) (b : Nat) : Nat :=
  match a with
  | some t => if t = 0 then b else t
  | none => b

/-- A selected option of a select element, as collected by extractElementValue
in part_001 lines 167 to 171. -/
structure SelOpt where
  value : String
  text : String
  index : Nat
deriving DecidableEq

/-- A DOM element as observed by the content scripts.  Only the attributes and
properties that the embedded functions read are modelled.  getAttribute
results are Option valued, with none modelling a null return; dot properties
that JavaScript reports as undefined or missing are modelled by the empty
string, so that every equality and regex test on them behaves as in the
source. -/
structure JsElem where
  tagName : String
  typeProp : String
  typeAttr : Option String
  autocomplete : String
  name : String
  id : String
  placeholder : String
  roleAttr : Option String
  ariaLabelAttr : Option String
  offsetParentNull : Bool
  styleDisplay : String
  isContentEditable : Bool
  contenteditableAttr : Option String
  computedHeightPx : Option Nat
  offsetHeight : Nat
  scrollHeight : Nat
  innerHTML : String
  textContent : String
  value : String
  checked : Bool
  selectedOptions : List SelOpt
  selectedIndexProp : Int
  multipleSel : Bool
  isConnected : Bool
deriving DecidableEq

/-- The password token test /password|passwd|pwd/i of part_001 lines 25 to 26. -/
def pwdTokenTest (s : String) : Bool :=
  ciContains s "password" || ciContains s "passwd" || ciContains s "pwd"

/-- The password-field detection of shouldSaveElement, part_001 lines 19 to 26
(identical in part_000 lines 17 to 24): type property or attribute is
password, autocomplete hints at a current or new password, or the name or id
matches the password token pattern. -/
def isPasswordField (el : JsElem) : Bool :=
  el.typeProp == "password" || el.typeAttr == some "password" ||
  el.autocomplete == "current-password" || el.autocomplete == "new-password" ||
  pwdTokenTest el.name || pwdTokenTest el.id

/-- The placeholder search token test /search|搜索|query/i of part_001 line 34. -/
def searchPlaceholderTest (s : String) : Bool :=
  ciContains s "search" || ciContains s "搜索" || ciContains s "query"

/-- The name and aria-label search token test /search|搜索/i of part_001
lines 35 to 36. -/
def searchNameTest (s : String) : Bool :=
  ciContains s "search" || ciContains s "搜索"

/-- The search-box detection of shouldSaveElement, part_001 lines 31 to 36. -/
def isSearchBox (el : JsElem) : Bool :=
  el.typeAttr == some "search" || el.roleAttr == some "searchbox" ||
  searchPlaceholderTest el.placeholder || searchNameTest el.name ||
  searchNameTest (el.ariaLabelAttr.getD "")

/-- Structurally excluded input types, part_001 line 44. -/
def excludedInputTypes : List String :=
  ["submit", "button", "reset", "image", "file", "hidden"]

/-- Text-like input types, part_001 line 75. -/
def textInputTypes : List String :=
  ["text", "email", "url", "tel", "number", "date", "datetime-local", "month",
   "week", "time", "color"]

/-- The content token pattern of part_001 line 67. -/
def contentTokenTest (s : String) : Bool :=
  ciContains s "body" || ciContains s "content" || ciContains s "message" ||
  ciContains s "description" || ciContains s "comment" || ciContains s "text" ||
  ciContains s "post" || ciContains s "reply" || ciContains s "note" ||
  ciContains s "memo" || ciContains s "备注" || ciContains s "内容" ||
  ciContains s "评论" || ciContains s "留言"

/-- The sensitive identity token pattern of part_001 line 78. -/
def sensitiveTokenTest (s : String) : Bool :=
  ciContains s "username" || ciContains s "user" || ciContains s "email" ||
  ciContains s "login" || ciContains s "account" || ciContains s "phone" ||
  ciContains s "mobile" || ciContains s "名字" || ciContains s "用户名" ||
  ciContains s "邮箱" || ciContains s "手机" || ciContains s "电话"

/-- The textarea height of part_001 line 58: parseInt of the computed style
height, falling back to offsetHeight when the parse yields NaN or 0 (both are
falsy under the JavaScript || operator).  The WeakMap caching of part_001
lines 55 to 61 stores this same number per element, so the pure model reads
it directly. -/
def elemHeight (el : JsElem) : Nat :=
  match el.computedHeightPx with
  | some h => if h = 0 then el.offsetHeight else h
  | none => el.offsetHeight

/-- shouldSaveElement from part_001 lines 14 to 98.  The source returns from
inside the TEXTAREA block only on a positive match and otherwise falls
through past the INPUT and SELECT rules (whose tag tests then fail) to the
final return false, which the chained conditionals below reproduce. -/
def shouldSaveElement (el : JsElem) : Bool :=
  if el.tagName == "" then false
  else
    let tagName := upperStr el.tagName
    if isPasswordField el then false
    else if isSearchBox el then false
    else if el.offsetParentNull || el.styleDisplay == "none" then false
    else if tagName == "INPUT" && excludedInputTypes.contains el.typeProp then false
    else if el.isContentEditable && el.contenteditableAttr == some "true" then true
    else if tagName == "TEXTAREA" && decide (150 < elemHeight el) then true
    else if tagName == "TEXTAREA" && (contentTokenTest el.name || contentTokenTest el.placeholder) then true
    else if tagName == "INPUT" && textInputTypes.contains el.typeProp then
      !(sensitiveTokenTest el.name || sensitiveTokenTest el.id)
    else if tagName == "SELECT" then true
    else if tagName == "INPUT" && (el.typeProp == "checkbox" || el.typeProp == "radio") then
      el.name != ""
    else false

/-- shouldSaveElement from src/content-scripts/auto-save.js lines 2 to 16, the
simplified classifier variant: it only excludes a password type property and
a search type attribute before its inclusion rules. -/
def shouldSaveElementAutoSave (el : JsElem) : Bool :=
  if el.typeProp == "password" || el.typeAttr == some "search" then false
  else if el.isContentEditable then true
  else
    el.tagName == "TEXTAREA" || decide (150 < el.scrollHeight) ||
    strContains (lowerStr el.placeholder) "comment" ||
    (ciContains el.name "body" || ciContains el.name "content" ||
     ciContains el.name "message" || ciContains el.name "description")

/-- One entry of a JSON-encoded selected option, modelling the object literal
produced by JSON.stringify for an element of the selectedOptions array. -/
def jsonOfOption (o : SelOpt) : String :=
  "\x7b\"value\":\"" ++ o.value ++ "\",\"text\":\"" ++ o.text ++
  "\",\"index\":" ++ toString o.index ++ "\x7d"

/-- JSON array serialization: the empty array prints as a two-character
string, a nonempty array wraps its comma-separated entries in brackets. -/
def jsonArray : List String → String
  | [] => "[]"
  | x :: xs => "[" ++ x ++ xs.foldl (fun acc y => acc ++ "," ++ y) "" ++ "]"

/-- JSON.stringify(selectedOptions) from part_001 line 172. -/
def jsonOfSelected (l : List SelOpt) : String :=
  jsonArray (l.map jsonOfOption)

/-- The result record of extractElementValue in part_001: the serialized
content, the element type tag, and the additionalData fields (Option valued,
none when the source leaves them unset). -/
structure ExtractResult where
  content : String
  elementType : String
  checkedData : Option Bool
  valueData : Option String
  selectedIndexData : Option Int
  multipleData : Option Bool
deriving DecidableEq

/-- An ExtractResult with every field at its initial value of part_001
lines 134 to 136. -/
def emptyExtract : ExtractResult :=
  { content := "", elementType := "", checkedData := none, valueData := none,
    selectedIndexData := none, multipleData := none }

/-- extractElementValue from part_001 lines 132 to 178. -/
def extractElementValue (el : JsElem) : ExtractResult :=
  let tagName := upperStr el.tagName
  if el.isContentEditable then
    { emptyExtract with content := el.innerHTML, elementType := "contenteditable" }
  else if tagName == "TEXTAREA" then
    { emptyExtract with content := el.value, elementType := "textarea" }
  else if tagName == "INPUT" then
    let inputType := if el.typeProp == "" then "text" else el.typeProp
    if inputType == "checkbox" then
      { emptyExtract with
        content := if el.checked then "checked" else "unchecked",
        elementType := "input-" ++ inputType,
        checkedData := some el.checked, valueData := some el.value }
    else if inputType == "radio" then
      { emptyExtract with
        content := (if el.checked then "checked:" else "unchecked:") ++ el.value,
        elementType := "input-" ++ inputType,
        checkedData := some el.checked, valueData := some el.value }
    else
      { emptyExtract with content := el.value, elementType := "input-" ++ inputType }
  else if tagName == "SELECT" then
    { emptyExtract with
      content := jsonOfSelected el.selectedOptions, elementType := "select",
      selectedIndexData := some el.selectedIndexProp, multipleData := some el.multipleSel }
  else
    { emptyExtract with elementType := lowerStr tagName }

/-- A persisted draft record.  The fields are those built by the saveDraft
variants and read by the background handlers.  lastAccessed is Option valued
because the drafts written by src/content-scripts/auto-save.js carry no such
field.  The display-only metadata object of part_001 lines 219 to 226 is not
modelled. -/
structure Draft where
  url : String
  content : String
  timestamp : Nat
  lastAccessed : Option Nat
  title : String
  isRichText : Bool
  elementType : String
  domain : String
deriving DecidableEq

/-- document.title.substring(0, 60) || the fallback title, part_001 line 214. -/
def jsTitle (title : String) : String :=
  if takeStr title 60 == "" then "无标题" else takeStr title 60

/-- The draft object built by saveDraft in part_001 lines 209 to 227. -/
def mkDraft1 (r : ExtractResult) (url domain title : String) (now : Nat) : Draft :=
  { url := url, content := r.content, timestamp := now, lastAccessed := some now,
    title := jsTitle title, isRichText := r.elementType == "contenteditable",
    elementType := r.elementType, domain := domain }

/-- The trimmed text that saveDraft in part_001 checks against its length
threshold: the trimmed textContent for contenteditable regions (tags are not
part of textContent), otherwise the trimmed extracted content. -/
def trimmedText1 (el : JsElem) : String :=
  let r := extractElementValue el
  if r.elementType == "contenteditable" then trimStr el.textContent else trimStr r.content

/-- saveDraft from part_001 lines 184 to 256, modelled as the draft it sends
in a SAVE_DRAFT message; none models an early return that skips the save.
Checkbox and radio inputs are always saved, selects only with a nonempty
selection, and all other kinds only when the trimmed text reaches 3
characters. -/
def saveDraft1 (el : JsElem) (url domain title : String) (now : Nat) : Option Draft :=
  if !el.isConnected then none
  else
    let r := extractElementValue el
    if r.elementType == "input-checkbox" ∨ r.elementType == "input-radio" then
      some (mkDraft1 r url domain title now)
    else if r.elementType == "select" then
      if r.content = "" ∨ r.content = "[]" then none
      else some (mkDraft1 r url domain title now)
    else
      let trimmed := if r.elementType == "contenteditable" then trimStr el.textContent else trimStr r.content
      if trimmed = "" ∨ trimmed.length < 3 then none
      else some (mkDraft1 r url domain title now)

/-- The trimmed text that saveDraft in part_000 checks against its length
threshold. -/
def trimmedText0 (el : JsElem) : String :=
  if el.isContentEditable then trimStr el.textContent else trimStr el.value

/-- saveDraft from part_000 lines 100 to 160, the earlier variant: rich text
from innerHTML, otherwise the value property, skipped below 10 trimmed
characters.  Its draft carries no elementType tag, modelled by the empty
string. -/
def saveDraft0 (el : JsElem) (url domain title : String) (now : Nat) : Option Draft :=
  if !el.isConnected then none
  else
    let isRichText := el.isContentEditable
    let content := if isRichText then el.innerHTML else el.value
    let trimmed := if isRichText then trimStr el.textContent else trimStr content
    if trimmed = "" ∨ trimmed.length < 10 then none
    else
      some { url := url, content := content, timestamp := now, lastAccessed := some now,
             title := jsTitle title, isRichText := isRichText, elementType := "",
             domain := domain }

/-- An edit event: an input event on element elem (elements are numbered) at
time t, in milliseconds. -/
structure EditEvent where
  t : Nat
  elem : Nat
deriving DecidableEq

/-- Trace semantics of debounce from part_001 lines 106 to 112 applied to
saveDraft: the returned closure holds a single shared timeoutId, and every
call clears the pending timer and schedules the wrapped function delay
milliseconds later.  The input list holds the edit events in time order; the
second argument is the pending timer, as the pair of its due time and its
element; extract e t models extracting the current value of element e when
the timer fires at time t.  The result lists the performed writes as
(fire time, element, extracted value) triples; a pending timer whose due time
is not later than the next edits time fires before that edit clears it, and
a still-pending timer at the end of the trace eventually fires. -/
def debounceTrace (extract : Nat → Nat → Nat) (delay : Nat) :
    List EditEvent → Option (Nat × Nat) → List (Nat × Nat × Nat)
  | [], none => []
  | [], some (due, e) => [(due, e, extract e due)]
  | ev :: rest, none => debounceTrace extract delay rest (some (ev.t + delay, ev.elem))
  | ev :: rest, some (due, e) =>
    if due ≤ ev.t then
      (due, e, extract e due) :: debounceTrace extract delay rest (some (ev.t + delay, ev.elem))
    else debounceTrace extract delay rest (some (ev.t + delay, ev.elem))

/-- debouncedSave = debounce(saveDraft, 3000) from part_001 line 345 (the same
shape as auto-save.js lines 28 and 45), run on a trace of edit events with no
timer pending initially. -/
def debouncedSaveTrace (extract : Nat → Nat → Nat) (edits : List EditEvent) :
    List (Nat × Nat × Nat) :=
  debounceTrace extract 3000 edits none

/-- The retention window of src/background.js line 31. -/
def EXPIRY_MILLISECONDS : Nat := 30 * 24 * 60 * 60 * 1000

/-- The expiry test of src/background.js lines 38 to 41: the age is measured
from lastAccessed, falling back to the creation timestamp when the access
time is absent (or 0, which is falsy under ||). -/
def isExpired (now : Nat) (d : Draft) : Bool :=
  decide (EXPIRY_MILLISECONDS < now - jsOrNat d.lastAccessed d.timestamp)

/-- cleanExpiredDrafts from src/background.js lines 27 to 55: every entry
older than the retention window is deleted, and the mapping is written back
only when at least one entry was deleted.  The result is the written mapping,
or none when no write happens. -/
def cleanExpiredDrafts (now : Nat) (drafts : List (String × Draft)) :
    Option (List (String × Draft)) :=
  if drafts.any (fun kd => isExpired now kd.2) then
    some (drafts.filter (fun kd => !isExpired now kd.2))
  else none

/-- cleanExpiredDrafts from part_004 lines 10 to 22, the other sweep variant:
the age is measured from the creation timestamp only, ignoring lastAccessed,
and the mapping is written back unconditionally (the result is always a
write). -/
def cleanExpiredDraftsV4 (now : Nat) (drafts : List (String × Draft)) :
    Option (List (String × Draft)) :=
  some (drafts.filter (fun kd => !decide (EXPIRY_MILLISECONDS < now - kd.2.timestamp)))

/-- Splits a character list at the first occurrence of the three-character
scheme separator of a URL, returning the parts before and after it. -/
def breakOnSchemeSep : List Char → Option (List Char × List Char)
  | [] => none
  | c :: cs =>
    if [':', '/', '/'].isPrefixOf (c :: cs) then some ([], (c :: cs).drop 3)
    else
      match breakOnSchemeSep cs with
      | some (pre, post) => some (c :: pre, post)
      | none => none

/-- Models new URL(s).hostname for absolute URLs: a nonempty scheme must come
before the first :// separator and a nonempty host after it; the hostname is
what follows the separator up to the first slash, colon, question mark or
hash.  none models the TypeError thrown on an unparseable URL string. -/
def parseHostname (s : String) : Option String :=
  match breakOnSchemeSep s.data with
  | none => none
  | some (scheme, rest) =>
    if scheme.isEmpty then none
    else
      let host := rest.takeWhile (fun c => !(c == '/' || c == ':' || c == '?' || c == '#'))
      if host.isEmpty then none else some ⟨host⟩

/-- Insertion into a list already sorted by descending timestamp. -/
def insertByTsDesc (kd : String × Draft) : List (String × Draft) → List (String × Draft)
  | [] => [kd]
  | x :: xs => if kd.2.timestamp ≤ x.2.timestamp then x :: insertByTsDesc kd xs else kd :: x :: xs

/-- The sort by descending timestamp of src/background.js line 99. -/
def sortByTsDesc (l : List (String × Draft)) : List (String × Draft) :=
  l.foldr insertByTsDesc []

/-- handleGetDraftsByDomain from src/background.js lines 84 to 106.  The
request URL is parsed first (its failure is caught by the surrounding
try/catch and reported as an error response); each stored entry is kept when
its own url parses to the same hostname, and dropped when the parse throws
(the catch inside the filter callback returns false).  The matches are
returned newest first; the source also flattens each pair into one object,
which this model leaves as the key-draft pair. -/
def handleGetDraftsByDomain (drafts : List (String × Draft)) (requestUrl : String) :
    Except String (List (String × Draft)) :=
  match parseHostname requestUrl with
  | none => .error "TypeError"
  | some requestHostname =>
    .ok (sortByTsDesc (drafts.filter (fun kd =>
      match parseHostname kd.2.url with
      | some h => h == requestHostname
      | none => false)))

/-- The GET_DRAFTS_BY_URL filter of part_004 lines 28 to 30: each stored url
is parsed with no guard, so the first unparseable one throws out of the whole
filter (an error result) and no response is sent. -/
def filterByHostV4 (requestUrl : String) :
    List (String × Draft) → Except String (List (String × Draft))
  | [] => .ok []
  | kd :: rest =>
    match parseHostname kd.2.url with
    | none => .error "TypeError"
    | some h =>
      match parseHostname requestUrl with
      | none => .error "TypeError"
      | some rh =>
        match filterByHostV4 requestUrl rest with
        | .error e => .error e
        | .ok l => .ok (if h == rh then kd :: l else l)

/-- The response and the storage write of an UPDATE_DRAFT_ACCESS request:
write is none when chrome.storage.local.set is never called. -/
structure AccessResult where
  success : Bool
  write : Option (List (String × Draft))
deriving DecidableEq

/-- handleUpdateDraftAccess from src/background.js lines 111 to 126: when the
key is present, its entry gets lastAccessed set to now and the mapping is
written back with a success response; when absent, a failure response is sent
and nothing is written. -/
def handleUpdateDraftAccess (drafts : List (String × Draft)) (draftKey : String) (now : Nat) :
    AccessResult :=
  match drafts.lookup draftKey with
  | some _ =>
    { success := true,
      write := some (drafts.map (fun kd =>
        if kd.1 = draftKey then (kd.1, { kd.2 with lastAccessed := some now }) else kd)) }
  | none => { success := false, write := none }

/-- The sensitive hostname tokens of part_002 lines 19 to 23. -/
def sensitiveDomains : List String :=
  ["bank", "banking", "paypal", "payment", "checkout",
   "login", "signin", "signup", "register", "password",
   "alipay", "支付宝", "wechat", "微信支付"]

/-- The sensitive page test of part_002 lines 25 to 26: the hostname is
lowercased and tested for each token by substring inclusion. -/
def isSensitivePage (hostname : String) : Bool :=
  sensitiveDomains.any (fun d => strContains (lowerStr hostname) d)

/-- checkForDrafts from part_002 lines 12 to 56, reduced to its query
behaviour: some url is the GET_DRAFTS_BY_DOMAIN request it sends (whose
response may show the restore prompt), none is the early return on a
sensitive page, before any store query and hence before any prompt. -/
def checkForDraftsQuery (hostname url : String) : Option String :=
  if isSensitivePage hostname then none else some url

/-- The sensitive hostname tokens of part_003 line 10. -/
def unsafeDomains : List String := ["bank", "login", "paypal", "password"]

/-- checkForDrafts from part_003 lines 8 to 24, reduced to its query
behaviour: some hostname means it proceeds to read the draft store for that
hostname, none is the early return on an unsafe page.  The hostname is not
lowercased in this variant. -/
def checkForDraftsQueryV3 (hostname : String) : Option String :=
  if unsafeDomains.any (fun d => strContains hostname d) then none else some hostname

/-- Tag stripping over raw characters: everything from an opening angle
bracket to the next closing one is dropped. -/
def stripTagsAux : List Char → Bool → List Char
  | [], _ => []
  | c :: cs, true => if c = '>' then stripTagsAux cs false else stripTagsAux cs true
  | c :: cs, false => if c = '<' then stripTagsAux cs true else c :: stripTagsAux cs false

/-- getPlainText from part_002 lines 381 to 385: the html string is parsed
into a detached div and its textContent is read back, which for plain markup
without entity references is the text outside the tags. -/
def getPlainText (html : String) : String :=
  ⟨stripTagsAux html.data false⟩

/-- A restore target element: the two properties the restore assignment paths
inspect. -/
structure RestoreTarget where
  isContentEditable : Bool
  tagName : String
deriving DecidableEq

/-- How a restore path writes into its target: through the innerHTML setter
(the string is parsed as markup in a rich region), the value property of a
form control, or the textContent property (never parsed as markup). -/
inductive Assignment where
  | innerHTML (s : String)
  | value (s : String)
  | textContent (s : String)
deriving DecidableEq

/-- The string carried by an assignment. -/
def assignedText : Assignment → String
  | .innerHTML s => s
  | .value s => s
  | .textContent s => s

/-- Whether an assignment goes through the markup-parsing innerHTML setter. -/
def isMarkupAssignment : Assignment → Bool
  | .innerHTML _ => true
  | .value _ => false
  | .textContent _ => false

/-- The content assignment of restoreDraft from part_002 lines 260 to 272:
matching kinds are assigned directly, and on a kind mismatch the content is
degraded to plain text first, going to the value property of a textarea and
to textContent otherwise. -/
def restoreDraftApply (isRichText : Bool) (content : String) (t : RestoreTarget) : Assignment :=
  if isRichText && t.isContentEditable then .innerHTML content
  else if !isRichText && t.tagName == "TEXTAREA" then .value content
  else
    let plainText := getPlainText content
    if t.tagName == "TEXTAREA" then .value plainText else .textContent plainText

/-- The content assignment of restoreContentToPage from src/sidepanel/script.js
lines 321 to 333: a contenteditable target always receives the content through
innerHTML, a non-editable target receives rich content stripped to plain text
and plain content as is, through the value property. -/
def restoreContentToPageApply (content : String) (isRichText : Bool) (t : RestoreTarget) :
    Assignment :=
  if t.isContentEditable then .innerHTML content
  else if isRichText then .value (getPlainText content)
  else .value content

/-- The content assignment of the RESTORE_DRAFT message listener in part_003
lines 64 to 77: rich content goes through innerHTML and plain content through
the value property, with no look at the kind of the target element (the
first textarea or contenteditable element in document order). -/
def restoreListenerApplyV3 (isRichText : Bool) (content : String) (_t : RestoreTarget) :
    Assignment :=
  if isRichText then .innerHTML content else .value content

/-- A candidate restore target element of part_002, with the properties that
findBestInputElement inspects, plus the contenteditable attribute used by the
selector queries. -/
structure PageElem where
  tagName : String
  contenteditableAttr : Option String
  offsetParentNull : Bool
  styleDisplay : String
  typeProp : String
  offsetHeight : Nat
deriving DecidableEq

/-- The visible-textarea filter of part_002 lines 309 to 313. -/
def isVisibleTextarea (el : PageElem) : Bool :=
  !el.offsetParentNull && el.styleDisplay != "none" && el.typeProp != "password"

/-- The visible-editable filter of part_002 lines 315 to 318. -/
def isVisibleEditable (el : PageElem) : Bool :=
  !el.offsetParentNull && el.styleDisplay != "none"

/-- The tall-textarea test of part_002 line 321. -/
def tallTest (el : PageElem) : Bool :=
  decide (150 < el.offsetHeight)

/-- findBestInputElement from part_002 lines 304 to 331, taking the results of
the two querySelectorAll calls (all textareas and all elements with the
contenteditable attribute set to true, in document order). -/
def findBestInputElement (textareas editables : List PageElem) : Option PageElem :=
  let visibleTextareas := textareas.filter isVisibleTextarea
  let visibleEditables := editables.filter isVisibleEditable
  match visibleTextareas.find? tallTest with
  | some el => some el
  | none =>
    match visibleEditables.head? with
    | some el => some el
    | none => visibleTextareas.head?

/-- The selection priority as the specification words it: the first visible
textarea taller than 150 units, else the first visible rich-text editable
region, else the first visible textarea, else none. -/
def restoreTargetSpec (textareas editables : List PageElem) : Option PageElem :=
  match textareas.find? (fun a => isVisibleTextarea a && tallTest a) with
  | some el => some el
  | none =>
    match editables.find? isVisibleEditable with
    | some el => some el
    | none => textareas.find? isVisibleTextarea

/-- The restore target of the part_003 listener, line 67: the first element
in document order matching the selector for textareas or elements carrying a
contenteditable attribute, with no visibility or height test. -/
def querySelectorRestoreTarget (doc : List PageElem) : Option PageElem :=
  doc.find? (fun el => el.tagName == "TEXTAREA" || el.contenteditableAttr.isSome)

/-- A neutral element fixture: no attributes set, visible, connected. -/
def baseElem : JsElem :=
  { tagName := "", typeProp := "", typeAttr := none, autocomplete := "", name := "",
    id := "", placeholder := "", roleAttr := none, ariaLabelAttr := none,
    offsetParentNull := false, styleDisplay := "", isContentEditable := false,
    contenteditableAttr := none, computedHeightPx := none, offsetHeight := 0,
    scrollHeight := 0, innerHTML := "", textContent := "", value := "",
    checked := false, selectedOptions := [], selectedIndexProp := 0,
    multipleSel := false, isConnected := true }

/-- A contenteditable region whose id matches the password token pattern: it
satisfies inclusion rule 1 but is flagged password-like. -/
def pwEditableElem : JsElem :=
  { baseElem with
    tagName := "DIV", id := "pwd_note",
    isContentEditable := true, contenteditableAttr := some "true" }

/-- A textarea named password: flagged password-like by the name rule of the
full classifier. -/
def pwTextareaElem : JsElem :=
  { baseElem with
    tagName := "TEXTAREA", typeProp := "textarea", name := "password",
    value := "hunter2 reminder", textContent := "" }

/-- A qualifying textarea holding the two-character text hi. -/
def hiTextareaElem : JsElem :=
  { baseElem with
    tagName := "TEXTAREA", typeProp := "textarea",
    name := "comment_body", value := "hi", computedHeightPx := some 200,
    offsetHeight := 200 }

/-- A named checkbox, unchecked. -/
def checkboxElem : JsElem :=
  { baseElem with tagName := "INPUT", typeProp := "checkbox", name := "agree" }

/-- A select with one selected option. -/
def selectOneElem : JsElem :=
  { baseElem with
    tagName := "SELECT", typeProp := "select-one",
    selectedOptions := [{ value := "a", text := "A", index := 0 }] }

/-- A visible select with no selected option. -/
def emptySelectElem : JsElem :=
  { baseElem with
    tagName := "SELECT", typeProp := "select-one",
    selectedOptions := [], selectedIndexProp := -1 }

/-- A draft fixture whose stored url does not parse. -/
def badUrlDraft : Draft :=
  { url := "not a url", content := "orphan", timestamp := 10, lastAccessed := some 10,
    title := "t", isRichText := false, elementType := "textarea", domain := "" }

/-- A draft fixture stored for example.com. -/
def goodUrlDraft : Draft :=
  { url := "https://example.com/page", content := "kept", timestamp := 20,
    lastAccessed := some 20, title := "t", isRichText := false,
    elementType := "textarea", domain := "example.com" }

/-- One day in milliseconds. -/
def dayMs : Nat := 24 * 60 * 60 * 1000

/-- The sweep time used by the expiry fixtures. -/
def sweepNow : Nat := 40 * dayMs

/-- A draft last accessed 31 days before sweepNow. -/
def draft31 : Draft :=
  { url := "https://example.com/a", content := "old", timestamp := 5 * dayMs,
    lastAccessed := some (9 * dayMs), title := "t", isRichText := false,
    elementType := "textarea", domain := "example.com" }

/-- A draft last accessed 29 days before sweepNow. -/
def draft29 : Draft :=
  { url := "https://example.com/b", content := "young", timestamp := 5 * dayMs,
    lastAccessed := some (11 * dayMs), title := "t", isRichText := false,
    elementType := "textarea", domain := "example.com" }

/-- A draft created 31 days before sweepNow but accessed one day before it. -/
def draftMixedAge : Draft :=
  { url := "https://example.com/c", content := "recently read", timestamp := 9 * dayMs,
    lastAccessed := some (39 * dayMs), title := "t", isRichText := false,
    elementType := "textarea", domain := "example.com" }

/-- A draft both created and last accessed one day before sweepNow. -/
def draftFresh : Draft :=
  { url := "https://example.com/d", content := "fresh", timestamp := 39 * dayMs,
    lastAccessed := some (39 * dayMs), title := "t", isRichText := false,
    elementType := "textarea", domain := "example.com" }

/-- A visible contenteditable region of height 40. -/
def editablePageElem : PageElem :=
  { tagName := "DIV", contenteditableAttr := some "true", offsetParentNull := false,
    styleDisplay := "", typeProp := "", offsetHeight := 40 }

/-- A visible textarea of height 300. -/
def tallTextareaPageElem : PageElem :=
  { tagName := "TEXTAREA", contenteditableAttr := none, offsetParentNull := false,
    styleDisplay := "", typeProp := "textarea", offsetHeight := 300 }

theorem jsonOfOption_length_pos (o : SelOpt) : 0 < (jsonOfOption o).length := by
  unfold jsonOfOption
  simp only [String.length_append]
  have h : String.length "\x7b\"value\":\"" = 10 := by decide
  omega

theorem jsonArray_cons_ne (x : String) (xs : List String) (hx : 0 < x.length) :
    jsonArray (x :: xs) ≠ "" ∧ jsonArray (x :: xs) ≠ "[]" := by
  unfold jsonArray
  have hl : String.length "[" = 1 := by decide
  have hr : String.length "]" = 1 := by decide
  have he : String.length "" = 0 := by decide
  have hb : String.length "[]" = 2 := by decide
  constructor <;> intro h <;> have hlen := congrArg String.length h <;>
    simp only [String.length_append] at hlen <;> omega

theorem jsonOfSelected_eq_nil_iff (l : List SelOpt) :
    (jsonOfSelected l = "" ∨ jsonOfSelected l = "[]") ↔ l = [] := by
  cases l with
  | nil => simp [jsonOfSelected, jsonArray]
  | cons o rest =>
    simp only [jsonOfSelected, List.map_cons]
    have h := jsonArray_cons_ne (jsonOfOption o) (rest.map jsonOfOption)
      (jsonOfOption_length_pos o)
    constructor
    · rintro (h1 | h1)
      · exact absurd h1 h.1
      · exact absurd h1 h.2
    · intro hc
      exact absurd hc (List.cons_ne_nil o rest)

/-- C1 (amended): in the full classifier of part_000/part_001, every element
flagged password-like by any of the detection rules (password type property
or attribute, current or new password autocomplete, or a password token in
the name or id) is rejected by shouldSaveElement, even when the element also
satisfies an inclusion rule.  The simplified variant in
src/content-scripts/auto-save.js checks only the type property and the
search type attribute, so it does not share this guarantee (see the
counterexample). -/
theorem password_field_never_draftworthy (el : JsElem)
    (h : isPasswordField el = true) : shouldSaveElement el = false := by
  simp [shouldSaveElement, h]

/-- Witness: a contenteditable region with id pwd_note satisfies inclusion
rule 1 and the password name/id detection rule, and is rejected. -/
theorem password_field_never_draftworthy_witness :
    isPasswordField pwEditableElem = true ∧
    pwEditableElem.isContentEditable = true ∧
    pwEditableElem.contenteditableAttr = some "true" ∧
    shouldSaveElement pwEditableElem = false :=
  ⟨by decide, by decide, by decide,
   password_field_never_draftworthy pwEditableElem (by decide)⟩

/-- C1 counterexample: a textarea named password is flagged password-like by
the detection rules, yet the shouldSaveElement variant of
src/content-scripts/auto-save.js classifies it as worth saving. -/
theorem autosave_password_textarea_saved_cex :
    isPasswordField pwTextareaElem = true ∧
    shouldSaveElementAutoSave pwTextareaElem = true := by
  decide

/-- C3: for the plain-text and rich-text kinds (anything except checkbox,
radio and select), saveDraft of part_001 skips the save whenever the trimmed,
tag-stripped text is shorter than 3 characters, and saveDraft of part_000
(whose threshold is 10) skips it as well, so no stored draft of those kinds
has a trimmed content length below 3. -/
theorem text_min_length_skip (el : JsElem) (url domain title : String) (now : Nat) :
    ((extractElementValue el).elementType ≠ "input-checkbox" →
     (extractElementValue el).elementType ≠ "input-radio" →
     (extractElementValue el).elementType ≠ "select" →
     (trimmedText1 el).length < 3 →
     saveDraft1 el url domain title now = none) ∧
    ((trimmedText0 el).length < 3 → saveDraft0 el url domain title now = none) := by
  constructor
  · intro h1 h2 h3 hlen
    cases hIc : el.isConnected with
    | false => simp [saveDraft1, hIc]
    | true =>
      simp only [saveDraft1, hIc, Bool.not_true, Bool.false_eq_true, if_false]
      rw [if_neg, if_neg, if_pos]
      · exact Or.inr hlen
      · simp only [beq_iff_eq]
        exact h3
      · simp only [beq_iff_eq]
        rintro (hc | hc)
        · exact h1 hc
        · exact h2 hc
  · intro hlen
    simp only [saveDraft0]
    split_ifs with h1 h2 h3 h4
    · rfl
    · rfl
    · exfalso
      apply h3
      right
      have hl : (trimStr el.textContent).length < 3 := by
        simpa [trimmedText0, h2] using hlen
      omega
    · rfl
    · exfalso
      apply h4
      right
      have h2f : el.isContentEditable = false := by simpa using h2
      have hl : (trimStr el.value).length < 3 := by
        simpa [trimmedText0, h2f] using hlen
      omega

/-- Witness: typing hi (two characters) into a qualifying textarea (height
200, classified as draft-worthy) creates no entry in either saver. -/
theorem text_min_length_skip_witness :
    (extractElementValue hiTextareaElem).elementType ≠ "input-checkbox" ∧
    (trimmedText1 hiTextareaElem).length < 3 ∧
    shouldSaveElement hiTextareaElem = true ∧
    saveDraft1 hiTextareaElem "https://example.com/post" "example.com" "T" 0 = none ∧
    saveDraft0 hiTextareaElem "https://example.com/post" "example.com" "T" 0 = none :=
  ⟨by decide, by decide, by decide,
   (text_min_length_skip hiTextareaElem "https://example.com/post" "example.com" "T" 0).1
     (by decide) (by decide) (by decide) (by decide),
   (text_min_length_skip hiTextareaElem "https://example.com/post" "example.com" "T" 0).2
     (by decide)⟩

/-- C4 (amended): a connected checkbox or radio input is always saved by
saveDraft of part_001 regardless of its state, but a connected select is
saved exactly when its list of selected options is nonempty: an empty
selection (serialized as the two-character array) is skipped. -/
theorem choice_elements_persistence (el : JsElem) (url domain title : String) (now : Nat)
    (hconn : el.isConnected = true) (hce : el.isContentEditable = false) :
    (upperStr el.tagName = "INPUT" → (el.typeProp = "checkbox" ∨ el.typeProp = "radio") →
      (saveDraft1 el url domain title now).isSome = true) ∧
    (upperStr el.tagName = "SELECT" →
      ((saveDraft1 el url domain title now).isSome = true ↔ el.selectedOptions ≠ [])) := by
  constructor
  · intro htag hty
    rcases hty with hty | hty <;>
      simp [saveDraft1, extractElementValue, hconn, hce, htag, hty]
  · intro htag
    have hr : extractElementValue el =
        { emptyExtract with
          content := jsonOfSelected el.selectedOptions, elementType := "select",
          selectedIndexData := some el.selectedIndexProp,
          multipleData := some el.multipleSel } := by
      simp [extractElementValue, hce, htag]
    by_cases hni : el.selectedOptions = []
    · simp [saveDraft1, hr, hconn, hni, jsonOfSelected, jsonArray, emptyExtract]
    · have hP : ¬(jsonOfSelected el.selectedOptions = "" ∨
          jsonOfSelected el.selectedOptions = "[]") :=
        fun hcon => hni ((jsonOfSelected_eq_nil_iff el.selectedOptions).mp hcon)
      simp [saveDraft1, hr, hconn, hP, hni, emptyExtract]

/-- Witness: an unchecked named checkbox and a select with one selected
option are both saved. -/
theorem choice_elements_persistence_witness :
    (saveDraft1 checkboxElem "https://example.com/f" "example.com" "T" 5).isSome = true ∧
    (saveDraft1 selectOneElem "https://example.com/f" "example.com" "T" 5).isSome = true :=
  ⟨(choice_elements_persistence checkboxElem "https://example.com/f" "example.com" "T" 5
      (by decide) (by decide)).1 (by decide) (Or.inl (by decide)),
   ((choice_elements_persistence selectOneElem "https://example.com/f" "example.com" "T" 5
      (by decide) (by decide)).2 (by decide)).mpr (by decide)⟩

/-- C5 (amended): one invocation of cleanExpiredDrafts of src/background.js
deletes exactly the entries whose age, measured from lastAccessed with the
creation timestamp as fallback, exceeds 30 days, and it writes the mapping
back only when at least one entry was deleted.  The part_004 sweep variant
instead measures from the creation timestamp only and writes back
unconditionally (see the counterexample). -/
theorem clean_expired_background_spec (now : Nat) (drafts : List (String × Draft)) :
    (cleanExpiredDrafts now drafts = none ↔
      ∀ kd ∈ drafts,
        now - jsOrNat kd.2.lastAccessed kd.2.timestamp ≤ 30 * 24 * 60 * 60 * 1000) ∧
    (∀ l, cleanExpiredDrafts now drafts = some l →
      (∃ kd ∈ drafts,
        30 * 24 * 60 * 60 * 1000 < now - jsOrNat kd.2.lastAccessed kd.2.timestamp) ∧
      ∀ kd, kd ∈ l ↔ kd ∈ drafts ∧
        now - jsOrNat kd.2.lastAccessed kd.2.timestamp ≤ 30 * 24 * 60 * 60 * 1000) := by
  have hexp : ∀ kd : String × Draft, isExpired now kd.2 = true ↔
      30 * 24 * 60 * 60 * 1000 < now - jsOrNat kd.2.lastAccessed kd.2.timestamp := by
    intro kd
    simp [isExpired, EXPIRY_MILLISECONDS]
  constructor
  · constructor
    · intro hnone kd hkd
      by_contra hgt
      push_neg at hgt
      have hany : (drafts.any fun kd => isExpired now kd.2) = true :=
        List.any_eq_true.mpr ⟨kd, hkd, (hexp kd).mpr hgt⟩
      simp [cleanExpiredDrafts, hany] at hnone
    · intro hall
      have hany : (drafts.any fun kd => isExpired now kd.2) = false := by
        rw [List.any_eq_false]
        intro kd hkd hk
        exact absurd ((hexp kd).mp hk) (by have := hall kd hkd; omega)
      simp [cleanExpiredDrafts, hany]
  · intro l hl
    unfold cleanExpiredDrafts at hl
    by_cases hany : (drafts.any fun kd => isExpired now kd.2) = true
    · rw [if_pos hany] at hl
      obtain rfl : drafts.filter (fun kd => !isExpired now kd.2) = l :=
        Option.some.inj hl
      constructor
      · obtain ⟨kd, hkd, hkexp⟩ := List.any_eq_true.mp hany
        exact ⟨kd, hkd, (hexp kd).mp hkexp⟩
      · intro kd
        rw [List.mem_filter]
        constructor
        · rintro ⟨hm, hf⟩
          refine ⟨hm, ?_⟩
          have hfalse : isExpired now kd.2 = false := by simpa using hf
          by_contra hgt
          push_neg at hgt
          rw [(hexp kd).mpr hgt] at hfalse
          cases hfalse
        · rintro ⟨hm, hle⟩
          refine ⟨hm, ?_⟩
          have hfalse : isExpired now kd.2 = false := by
            cases he : isExpired now kd.2
            · rfl
            · exact absurd ((hexp kd).mp he) (by omega)
          simp [hfalse]
    · rw [if_neg hany] at hl
      simp at hl

/-- Witness for the expiry sweep: at sweepNow, the entry last accessed 31 days
ago is deleted and the entry last accessed 29 days ago is retained. -/
theorem clean_expired_background_spec_witness :
    (("k29", draft29) ∈ [("k29", draft29)] ↔
      ("k29", draft29) ∈ [("k31", draft31), ("k29", draft29)] ∧
      sweepNow - jsOrNat draft29.lastAccessed draft29.timestamp ≤
        30 * 24 * 60 * 60 * 1000) ∧
    (("k31", draft31) ∈ [("k29", draft29)] ↔
      ("k31", draft31) ∈ [("k31", draft31), ("k29", draft29)] ∧
      sweepNow - jsOrNat draft31.lastAccessed draft31.timestamp ≤
        30 * 24 * 60 * 60 * 1000) :=
  have h := (clean_expired_background_spec sweepNow
    [("k31", draft31), ("k29", draft29)]).2 [("k29", draft29)] (by decide)
  ⟨h.2 ("k29", draft29), h.2 ("k31", draft31)⟩

/-- C5 counterexample: the part_004 sweep deletes a draft created 31 days ago
even though it was last accessed one day ago (the background sweep retains it
and performs no write), and it also writes the mapping back when nothing at
all was deleted. -/
theorem clean_v4_divergence_cex :
    cleanExpiredDrafts sweepNow [("k", draftMixedAge)] = none ∧
    cleanExpiredDraftsV4 sweepNow [("k", draftMixedAge)] = some [] ∧
    cleanExpiredDraftsV4 sweepNow [("r", draftFresh)] = some [("r", draftFresh)] := by
  decide

theorem mem_insertByTsDesc (kd a : String × Draft) (l : List (String × Draft)) :
    a ∈ insertByTsDesc kd l ↔ a = kd ∨ a ∈ l := by
  induction l with
  | nil => simp [insertByTsDesc]
  | cons x xs ih =>
    simp only [insertByTsDesc]
    split_ifs with h
    · simp only [List.mem_cons, ih]
      tauto
    · simp only [List.mem_cons]

theorem mem_sortByTsDesc (a : String × Draft) (l : List (String × Draft)) :
    a ∈ sortByTsDesc l ↔ a ∈ l := by
  unfold sortByTsDesc
  induction l with
  | nil => simp
  | cons x xs ih => simp [mem_insertByTsDesc, ih]

/-- C7 (amended): the GET_DRAFTS_BY_DOMAIN handler of src/background.js skips
every stored entry whose url does not parse and answers successfully with
exactly the entries whose stored url parses to the requested hostname.  The
GET_DRAFTS_BY_URL handler of part_004 parses stored urls with no guard, so
one unparseable entry aborts the whole query (see the counterexample). -/
theorem get_drafts_by_domain_skips_bad_urls (drafts : List (String × Draft))
    (requestUrl host : String) (h : parseHostname requestUrl = some host) :
    ∃ l, handleGetDraftsByDomain drafts requestUrl = .ok l ∧
      ∀ kd, kd ∈ l ↔ kd ∈ drafts ∧ parseHostname kd.2.url = some host := by
  refine ⟨sortByTsDesc (drafts.filter (fun kd =>
      match parseHostname kd.2.url with
      | some h2 => h2 == host
      | none => false)), ?_, ?_⟩
  · unfold handleGetDraftsByDomain
    rw [h]
  · intro kd
    rw [mem_sortByTsDesc, List.mem_filter]
    constructor
    · rintro ⟨hm, hf⟩
      refine ⟨hm, ?_⟩
      revert hf
      cases hk : parseHostname kd.2.url with
      | none => simp
      | some h2 =>
        intro he
        have : h2 = host := by simpa using he
        rw [this]
    · rintro ⟨hm, hp⟩
      refine ⟨hm, ?_⟩
      rw [hp]
      simp

/-- Witness: a store with one unparseable entry and one example.com entry
answers the example.com query with exactly the parseable matching entry. -/
theorem get_drafts_by_domain_skips_bad_urls_witness :
    ∃ l, handleGetDraftsByDomain [("k1", badUrlDraft), ("k2", goodUrlDraft)]
        "https://example.com/" = .ok l ∧
      ∀ kd, kd ∈ l ↔
        kd ∈ [("k1", badUrlDraft), ("k2", goodUrlDraft)] ∧
        parseHostname kd.2.url = some "example.com" :=
  get_drafts_by_domain_skips_bad_urls [("k1", badUrlDraft), ("k2", goodUrlDraft)]
    "https://example.com/" "example.com" (by decide)

/-- C7 counterexample: on the same store, the background handler returns the
one matching entry while the part_004 GET_DRAFTS_BY_URL filter throws on the
unparseable entry, failing the whole query. -/
theorem get_drafts_by_url_throws_cex :
    handleGetDraftsByDomain [("k1", badUrlDraft), ("k2", goodUrlDraft)]
        "https://example.com/" = .ok [("k2", goodUrlDraft)] ∧
    filterByHostV4 "https://example.com/" [("k1", badUrlDraft), ("k2", goodUrlDraft)] =
      .error "TypeError" :=
  ⟨rfl, rfl⟩

theorem lookup_update_self (key : String) (now : Nat) (drafts : List (String × Draft)) :
    ∀ d : Draft, List.lookup key drafts = some d →
      List.lookup key (drafts.map (fun kd =>
        if kd.1 = key then (kd.1, { kd.2 with lastAccessed := some now }) else kd)) =
        some { d with lastAccessed := some now } := by
  induction drafts with
  | nil => intro d h; cases h
  | cons x xs ih =>
    obtain ⟨k, v⟩ := x
    intro d h
    by_cases hk : key = k
    · subst hk
      simp only [List.lookup, beq_self_eq_true] at h
      obtain rfl : v = d := Option.some.inj h
      simp only [List.map_cons]
      rw [if_pos trivial]
      simp [List.lookup]
    · have hb : (key == k) = false := by simp [hk]
      simp only [List.lookup, hb] at h
      have hne : ¬(k = key) := fun e => hk e.symm
      simp only [List.map_cons]
      rw [if_neg hne]
      simp only [List.lookup, hb]
      exact ih d h

theorem lookup_update_other (key other : String) (now : Nat)
    (drafts : List (String × Draft)) (hne : other ≠ key) :
    List.lookup other (drafts.map (fun kd =>
      if kd.1 = key then (kd.1, { kd.2 with lastAccessed := some now }) else kd)) =
      List.lookup other drafts := by
  induction drafts with
  | nil => rfl
  | cons x xs ih =>
    obtain ⟨k, v⟩ := x
    by_cases hk : k = key
    · subst hk
      have hb : (other == k) = false := by simp [hne]
      simp only [List.map_cons]
      rw [if_pos trivial]
      simp only [List.lookup, hb]
      exact ih
    · simp only [List.map_cons]
      rw [if_neg hk]
      by_cases ho : other = k
      · subst ho
        simp [List.lookup]
      · have hb : (other == k) = false := by simp [ho]
        simp only [List.lookup, hb]
        exact ih

/-- C10: an UPDATE_DRAFT_ACCESS request for a missing key gets a failure
response and causes no storage write; for a present key it gets a success
response and the written mapping differs only in that entry, whose
lastAccessed is set to now. -/
theorem update_draft_access_spec (drafts : List (String × Draft)) (draftKey : String)
    (now : Nat) :
    (List.lookup draftKey drafts = none →
      handleUpdateDraftAccess drafts draftKey now = { success := false, write := none }) ∧
    (∀ d, List.lookup draftKey drafts = some d →
      ∃ l, handleUpdateDraftAccess drafts draftKey now =
          { success := true, write := some l } ∧
        List.lookup draftKey l = some { d with lastAccessed := some now } ∧
        ∀ k, k ≠ draftKey → List.lookup k l = List.lookup k drafts) := by
  constructor
  · intro h
    unfold handleUpdateDraftAccess
    rw [h]
  · intro d h
    refine ⟨drafts.map (fun kd =>
        if kd.1 = draftKey then (kd.1, { kd.2 with lastAccessed := some now }) else kd),
      ?_, ?_, ?_⟩
    · unfold handleUpdateDraftAccess
      rw [h]
    · exact lookup_update_self draftKey now drafts d h
    · intro k hk
      exact lookup_update_other draftKey k now drafts hk

/-- Witness: on a one-entry store, a request for a missing key fails with no
write, and a request for the present key succeeds, bumps only lastAccessed,
and leaves lookups of other keys unchanged. -/
theorem update_draft_access_spec_witness :
    handleUpdateDraftAccess [("a", goodUrlDraft)] "b" 5 =
      { success := false, write := none } ∧
    ∃ l, handleUpdateDraftAccess [("a", goodUrlDraft)] "a" 5 =
        { success := true, write := some l } ∧
      List.lookup "a" l = some { goodUrlDraft with lastAccessed := some 5 } ∧
      ∀ k, k ≠ "a" → List.lookup k l = List.lookup k [("a", goodUrlDraft)] :=
  ⟨(update_draft_access_spec [("a", goodUrlDraft)] "b" 5).1 (by decide),
   (update_draft_access_spec [("a", goodUrlDraft)] "a" 5).2 goodUrlDraft (by decide)⟩

/-- C4 counterexample: a visible select with no selected option passes
classification, yet its save is skipped on grounds of emptiness. -/
theorem empty_select_skipped_cex :
    shouldSaveElement emptySelectElem = true ∧
    saveDraft1 emptySelectElem "https://example.com/f" "example.com" "T" 0 = none := by
  decide

theorem debounce_burst_aux (extract : Nat → Nat → Nat) (delay : Nat) (e : Nat)
    (ts : List Nat) :
    ∀ cur : Nat, List.Chain (fun a b => a < b ∧ b < a + delay) cur ts →
      debounceTrace extract delay (ts.map (fun t => ⟨t, e⟩)) (some (cur + delay, e)) =
        [(ts.getLastD cur + delay, e, extract e (ts.getLastD cur + delay))] := by
  induction ts with
  | nil =>
    intro cur _
    simp [debounceTrace]
  | cons b rest ih =>
    intro cur hchain
    rcases List.chain_cons.mp hchain with ⟨⟨hab, hlt⟩, hrest⟩
    have hnot : ¬(cur + delay ≤ b) := by omega
    simp only [List.map_cons, debounceTrace]
    rw [if_neg hnot]
    rw [ih b hrest]
    rw [List.getLastD_cons]

/-- C2 (amended): the debounce of part_001 holds one shared global timer, not
one timer per element: any edit within the delay window cancels the pending
write and reschedules for the newly edited element, whichever element it
belongs to (see the counterexample).  For a burst of edits all on the same
element, with every gap shorter than the delay, exactly one write is
performed, at one delay after the last edit, carrying the value extracted
from the element at that fire time. -/
theorem debounce_same_element_burst (extract : Nat → Nat → Nat) (e t0 : Nat)
    (ts : List Nat)
    (h : List.Chain (fun a b => a < b ∧ b < a + 3000) t0 ts) :
    debouncedSaveTrace extract ((t0 :: ts).map (fun t => ⟨t, e⟩)) =
      [(ts.getLastD t0 + 3000, e, extract e (ts.getLastD t0 + 3000))] := by
  unfold debouncedSaveTrace
  simp only [List.map_cons, debounceTrace]
  exact debounce_burst_aux extract 3000 e ts t0 h

/-- Witness: three edits to element 7 at 0, 1000 and 2500 ms produce exactly
one write, at 5500 ms, with the value extracted then. -/
theorem debounce_same_element_burst_witness :
    debouncedSaveTrace (fun _ t => t) [⟨0, 7⟩, ⟨1000, 7⟩, ⟨2500, 7⟩] =
      [(5500, 7, 5500)] :=
  debounce_same_element_burst (fun _ t => t) 7 0 [1000, 2500]
    (List.Chain.cons (by decide) (List.Chain.cons (by decide) List.Chain.nil))

/-- C2 counterexample: a single edit to element 0 at time 0 yields the write
(3000, 0, ...), but adding one edit to the distinct element 1 at time 1000,
inside the 3000 ms window of element 0, cancels the pending write of
element 0 entirely: the only write performed is for element 1. -/
theorem debounce_global_timer_cex :
    debouncedSaveTrace (fun _ t => t) [⟨0, 0⟩] = [(3000, 0, 3000)] ∧
    debouncedSaveTrace (fun _ t => t) [⟨0, 0⟩, ⟨1000, 1⟩] = [(4000, 1, 4000)] :=
  ⟨rfl, rfl⟩

/-- C9 (amended): the part_002 restore check returns early, performing no
store query and hence never showing a prompt, for every hostname containing
one of its sensitive tokens (which include all of bank, login, paypal,
password and checkout); the part_003 variant guards only bank, login, paypal
and password, so a hostname containing checkout is not skipped there (see
the counterexample). -/
theorem sensitive_hostname_skip (hostname url d : String) :
    (d ∈ sensitiveDomains → strContains (lowerStr hostname) d = true →
      checkForDraftsQuery hostname url = none) ∧
    (d ∈ unsafeDomains → strContains hostname d = true →
      checkForDraftsQueryV3 hostname = none) := by
  constructor
  · intro hd hc
    have hs : isSensitivePage hostname = true := by
      unfold isSensitivePage
      exact List.any_eq_true.mpr ⟨d, hd, hc⟩
    simp [checkForDraftsQuery, hs]
  · intro hd hc
    have hs : (unsafeDomains.any fun tok => strContains hostname tok) = true :=
      List.any_eq_true.mpr ⟨d, hd, hc⟩
    simp [checkForDraftsQueryV3, hs]

/-- Witness: a hostname containing bank is skipped by both restore checks. -/
theorem sensitive_hostname_skip_witness :
    ("bank" ∈ sensitiveDomains) ∧
    strContains (lowerStr "MyBank.example.com") "bank" = true ∧
    checkForDraftsQuery "MyBank.example.com" "https://mybank.example.com/" = none ∧
    ("bank" ∈ unsafeDomains) ∧
    strContains "mybank.example.com" "bank" = true ∧
    checkForDraftsQueryV3 "mybank.example.com" = none :=
  ⟨by decide, by decide,
   (sensitive_hostname_skip "MyBank.example.com" "https://mybank.example.com/" "bank").1
     (by decide) (by decide),
   by decide, by decide,
   (sensitive_hostname_skip "mybank.example.com" "" "bank").2 (by decide) (by decide)⟩

/-- C9 counterexample: a hostname containing the sensitive token checkout is
skipped by the part_002 check but not by the part_003 variant, which goes on
to query the draft store (and can then show a restore prompt). -/
theorem checkout_not_skipped_v3_cex :
    strContains "checkout.example.com" "checkout" = true ∧
    checkForDraftsQuery "checkout.example.com" "https://checkout.example.com/" = none ∧
    checkForDraftsQueryV3 "checkout.example.com" = some "checkout.example.com" := by
  decide

/-- C6 (amended): in restoreDraft of part_002, markup is assigned through
innerHTML only for a rich draft into a contenteditable target, and on any
kind mismatch the assigned text is the tag-stripped plain text, never raw
markup; in the sidepanel restoreContentToPage a non-editable target likewise
never receives markup (rich content is stripped to plain text first).  The
part_003 RESTORE_DRAFT listener performs no degradation at all (see the
counterexample). -/
theorem restore_mismatch_degrade (isRichText : Bool) (content : String)
    (t : RestoreTarget) :
    (∀ s, restoreDraftApply isRichText content t = .innerHTML s →
      isRichText = true ∧ t.isContentEditable = true ∧ s = content) ∧
    (¬(isRichText = true ∧ t.isContentEditable = true) →
     ¬(isRichText = false ∧ t.tagName = "TEXTAREA") →
      assignedText (restoreDraftApply isRichText content t) = getPlainText content ∧
      isMarkupAssignment (restoreDraftApply isRichText content t) = false) ∧
    (t.isContentEditable = false →
      restoreContentToPageApply content isRichText t =
        .value (if isRichText then getPlainText content else content)) := by
  obtain ⟨ce, tag⟩ := t
  cases isRichText <;> cases ce <;> by_cases htag : tag = "TEXTAREA" <;>
    simp [restoreDraftApply, restoreContentToPageApply, assignedText,
      isMarkupAssignment, htag]

/-- Witness: a rich draft applied to a textarea target (a kind mismatch) is
assigned as the stripped plain text, not as markup. -/
theorem restore_mismatch_degrade_witness :
    assignedText (restoreDraftApply true "<b>hi</b>"
      { isContentEditable := false, tagName := "TEXTAREA" }) =
      getPlainText "<b>hi</b>" ∧
    isMarkupAssignment (restoreDraftApply true "<b>hi</b>"
      { isContentEditable := false, tagName := "TEXTAREA" }) = false ∧
    getPlainText "<b>hi</b>" = "hi" :=
  have h := (restore_mismatch_degrade true "<b>hi</b>"
    { isContentEditable := false, tagName := "TEXTAREA" }).2.1 (by decide) (by decide)
  ⟨h.1, h.2, by decide⟩

/-- C6 counterexample: on a rich draft restored into a textarea (a kind
mismatch) the part_003 listener assigns the raw markup unmodified instead of
the stripped plain text. -/
theorem restore_listener_raw_assign_cex :
    restoreListenerApplyV3 true "<b>hi</b>"
      { isContentEditable := false, tagName := "TEXTAREA" } =
      .innerHTML "<b>hi</b>" ∧
    getPlainText "<b>hi</b>" = "hi" ∧
    ¬("<b>hi</b>" = "hi") := by
  decide

theorem find?_filter_comm {α : Type} (p q : α → Bool) (l : List α) :
    (l.filter p).find? q = l.find? (fun a => p a && q a) := by
  induction l with
  | nil => rfl
  | cons a tl ih =>
    cases hp : p a <;> cases hq : q a <;>
      simp [List.filter_cons, List.find?, hp, hq, ih]

theorem head?_filter_comm {α : Type} (p : α → Bool) (l : List α) :
    (l.filter p).head? = l.find? p := by
  induction l with
  | nil => rfl
  | cons a tl ih =>
    cases hp : p a <;> simp [List.filter_cons, List.find?, hp, ih]

/-- C8 (amended): findBestInputElement of part_002 selects exactly by the
stated priority: the first visible textarea taller than 150 units, else the
first visible rich-text editable region, else the first visible textarea;
and it yields none, a recoverable no-target result (its caller just reports
and returns), exactly when the page has no visible textarea and no visible
editable region.  The sidepanel and part_003 restore paths select their
target differently (see the counterexample). -/
theorem find_best_input_priority (textareas editables : List PageElem) :
    findBestInputElement textareas editables = restoreTargetSpec textareas editables ∧
    (findBestInputElement textareas editables = none ↔
      textareas.find? isVisibleTextarea = none ∧
      editables.find? isVisibleEditable = none) := by
  have hmain : findBestInputElement textareas editables =
      restoreTargetSpec textareas editables := by
    simp only [findBestInputElement, restoreTargetSpec]
    rw [find?_filter_comm, head?_filter_comm, head?_filter_comm]
  refine ⟨hmain, ?_⟩
  rw [hmain]
  unfold restoreTargetSpec
  cases hf1 : textareas.find? (fun a => isVisibleTextarea a && tallTest a) with
  | some el =>
    constructor
    · intro hcon
      cases hcon
    · rintro ⟨ha, hb⟩
      exfalso
      have hmem := List.mem_of_find?_eq_some hf1
      have hp := List.find?_some hf1
      have hv : isVisibleTextarea el = true := ((Bool.and_eq_true _ _).mp hp).1
      exact absurd hv (List.find?_eq_none.mp ha el hmem)
  | none =>
    cases hf2 : editables.find? isVisibleEditable with
    | some el2 => simp
    | none => simp

/-- C8 counterexample: on a page whose first element is a small visible
contenteditable region followed by a visible 300-unit textarea, the part_003
restore listener targets the contenteditable region (first in document
order), while the stated priority selects the tall textarea. -/
theorem restore_target_doc_order_cex :
    querySelectorRestoreTarget [editablePageElem, tallTextareaPageElem] =
      some editablePageElem ∧
    findBestInputElement [tallTextareaPageElem] [editablePageElem] =
      some tallTextareaPageElem ∧
    ¬(editablePageElem = tallTextareaPageElem) := by
  decide

end Clipper
